import Mathlib

/-!
Shallow embedding of `include/hermes/VM/RuntimeModule.h` (hermes VM).

A `RuntimeModule` bridges a module's static bytecode tables (string table,
function table, CommonJS table) to the runtime's dynamic universe: interned
symbols, lazily materialized code blocks, and two structural caches (object
literal hidden classes and template objects).

Modelling conventions:
- C++ pointers (CodeBlock*, JSObject*, HiddenClass*) are modelled by their
  identity, a `Nat`; heap allocation is an explicit counter threaded through
  the operations that allocate.
- `std::vector<T>` is `List`, with `l[i]?` for unchecked `operator[]`
  (out-of-bounds access is undefined behavior, modelled as `none`).
- `llvm::DenseMap<uint32_t, T*>` is an association list with `mapLookup` /
  `mapInsert` (`lookup` returns the null pointer on a missing key, modelled
  as `none`).
- `uint32_t` values are `Nat` reduced by `u32` (`% 2 ^ 32`) at every point
  where the C++ types truncate.
- A failed `assert` is a fatal invariant violation (debug semantics); an
  operation that can hit one returns `Option`, with `none` for the failure.
- Method bodies that live in `RuntimeModule.cpp` (not part of this tree) are
  modelled from the spec; each such definition says so in its doc comment.
-/

set_option linter.unusedVariables false

namespace HermesVM

/-- Truncation to `uint32_t`. -/
def u32 (n : Nat) : Nat := n % 2 ^ 32

/-- A code block (`CodeBlock*`): its pointer identity and the bytecode
function index it was constructed from. -/
structure CodeBlock where
  ptr : Nat
  functionID : Nat
deriving DecidableEq

/-- One entry of the bytecode provider's string table: the character content
of the string (`StringTableEntry` in the C++ source). -/
structure StringTableEntry where
  content : List Nat
deriving DecidableEq

/-- The bytecode provider (`hbc::BCProvider`): read-only accessor for a
module's static tables. `cjsTableMalformed` is modelled from the spec: the
CommonJS module-table import "can fail (malformed static table)"; this flag
records whether the static table is malformed. -/
structure BCProvider where
  stringTable : List StringTableEntry
  functionCount : Nat
  cjsModuleTable : List (Nat × Nat)
  cjsModuleTableStatic : List (Nat × Nat)
  cjsTableMalformed : Bool
  isLazy : Bool
deriving DecidableEq

/-- `RuntimeModuleFlags`: `persistent` means the module is never freed when
its reference count reaches zero; `hidesEpilogue` hides the epilogue from
`Runtime::getEpilogues()`. -/
structure RuntimeModuleFlags where
  persistent : Bool
  hidesEpilogue : Bool
deriving DecidableEq

/-- Default flags (`RuntimeModuleFlags() : flags(0)`). -/
def RuntimeModuleFlags.default : RuntimeModuleFlags :=
  { persistent := false, hidesEpilogue := false }

/-- The runtime's global identifier table. `interned` lists the interned
string contents (a symbol is its index in this list); `internCalls` is a
call-count instrumentation of how many times the table was asked to intern
(each hash-and-intern request increments it). -/
structure IdentifierTable where
  interned : List (List Nat)
  internCalls : Nat
deriving DecidableEq

/-- Intern a string: hashes the content and returns the stable symbol for
it, registering it when new. Every call counts as interning work. -/
def IdentifierTable.intern (tbl : IdentifierTable) (s : List Nat) :
    Nat × IdentifierTable :=
  (tbl.interned.indexOf s,
   { interned := if s ∈ tbl.interned then tbl.interned else tbl.interned ++ [s],
     internCalls := tbl.internCalls + 1 })

/-- `llvm::DenseMap::lookup`: the mapped value, or `none` (the null pointer)
when the key is absent. -/
def mapLookup (m : List (Nat × Nat)) (k : Nat) : Option Nat :=
  match m with
  | [] => none
  | (k', v) :: rest => if k' = k then some v else mapLookup rest k

/-- `llvm::DenseMap::operator[] =`: insert, overwriting any existing entry
for the key. -/
def mapInsert (m : List (Nat × Nat)) (k v : Nat) : List (Nat × Nat) :=
  match m with
  | [] => [(k, v)]
  | (k', v') :: rest =>
    if k' = k then (k', v) :: rest else (k', v') :: mapInsert rest k v

/-- `llvm::DenseMap::count(k) != 0`. -/
def mapContains (m : List (Nat × Nat)) (k : Nat) : Bool :=
  (mapLookup m k).isSome

/-- A hidden class (`HiddenClass*`): its pointer identity and its number of
properties (used as the literal count when caching). -/
structure HiddenClass where
  ptr : Nat
  numProperties : Nat
deriving DecidableEq

/-- The state of `RuntimeModule` as laid out in the header: the string-ID
map (slots hold an invalid `SymbolID` until materialized), the function map
(slots hold null until the code block is materialized), the shared bytecode
provider (null until initialized), flags, dependent modules, and the two
structural caches. -/
structure RuntimeModule where
  stringIDMap : List (Option Nat)
  functionMap : List (Option CodeBlock)
  bcProvider : Option BCProvider
  flags : RuntimeModuleFlags
  dependentModules : List Nat
  objectLiteralHiddenClasses : List (Nat × Nat)
  templateMap : List (Nat × Nat)
deriving DecidableEq

namespace RuntimeModule

/-- `RuntimeModule::createUninitialized`. Modelled from the spec for the
constructor body (it lives in `RuntimeModule.cpp`): the header's default
member initializers and the spec ("produces a shell Module with empty
tables, deferring import") give empty tables and a null bytecode
provider. -/
def createUninitialized (flags : RuntimeModuleFlags) : RuntimeModule :=
  { stringIDMap := []
    functionMap := []
    bcProvider := none
    flags := flags
    dependentModules := []
    objectLiteralHiddenClasses := []
    templateMap := [] }

/-- `RuntimeModule::isInitialized`: `return !bcProvider_->isLazy();`. The
provider pointer is dereferenced unconditionally, so the result is undefined
(`none`) when the provider is null. -/
def isInitialized (m : RuntimeModule) : Option Bool :=
  match m.bcProvider with
  | none => none
  | some bc => some (!bc.isLazy)

/-- `RuntimeModule::canGenerateLiteralHiddenClassCacheKey`:
`(keyBufferIndex & 0xFF000000) == 0 && numLiterals < 256`, on `uint32_t`
and `unsigned` arguments. -/
def canGenerateLiteralHiddenClassCacheKey (keyBufferIndex numLiterals : Nat) :
    Bool :=
  (u32 keyBufferIndex &&& 0xFF000000 == 0) && decide (u32 numLiterals < 256)

/-- The packed key `((uint32_t)keyBufferIndex << 8) | numLiterals` computed
by `getLiteralHiddenClassCacheHashKey`, as raw `uint32_t` arithmetic. -/
def literalKey (keyBufferIndex numLiterals : Nat) : Nat :=
  u32 (u32 keyBufferIndex <<< 8) ||| u32 numLiterals

/-- `RuntimeModule::getLiteralHiddenClassCacheHashKey`: asserts that the
tuple can generate a cache key, then packs `keyBufferIndex` into the top 24
bits and `numLiterals` into the low 8 bits. -/
def getLiteralHiddenClassCacheHashKey (keyBufferIndex numLiterals : Nat) :
    Option Nat :=
  if canGenerateLiteralHiddenClassCacheKey keyBufferIndex numLiterals then
    some (literalKey keyBufferIndex numLiterals)
  else
    none

/-- `RuntimeModule::findCachedTemplateObject`: `templateMap_.lookup(id)`. -/
def findCachedTemplateObject (m : RuntimeModule) (templateObjID : Nat) :
    Option Nat :=
  mapLookup m.templateMap templateObjID

/-- `RuntimeModule::cacheTemplateObject`: asserts that no entry exists for
the id (`templateMap_.count(templateObjID) == 0`), then inserts. `none`
models the assertion failing. -/
def cacheTemplateObject (m : RuntimeModule) (templateObjID templateObj : Nat) :
    Option RuntimeModule :=
  if mapContains m.templateMap templateObjID then
    none
  else
    some { m with templateMap := mapInsert m.templateMap templateObjID templateObj }

/-- A sequence of `cacheTemplateObject` calls, each of which must pass its
assertion. -/
def runTemplateOps (m : RuntimeModule) :
    List (Nat × Nat) → Option RuntimeModule
  | [] => some m
  | (id, obj) :: rest =>
    match m.cacheTemplateObject id obj with
    | none => none
    | some m' => m'.runTemplateOps rest

/-- `RuntimeModule::getSymbolIDMustExist`: asserts
`stringIDMap_[stringID].isValid()` and returns the slot. `none` models
either an out-of-bounds access (undefined behavior) or the assertion
failing on an unmaterialized slot. -/
def getSymbolIDMustExist (m : RuntimeModule) (stringID : Nat) : Option Nat :=
  match m.stringIDMap[stringID]? with
  | none => none
  | some none => none
  | some (some id) => some id

/-- `RuntimeModule::createSymbolFromStringID`. Modelled from the spec for
the body (it lives in `RuntimeModule.cpp`): "computes the table entry's
content hash, asks the global Symbol Table to intern it, stores the result
in the slot, and returns it". -/
def createSymbolFromStringID (m : RuntimeModule) (tbl : IdentifierTable)
    (stringID : Nat) (entry : StringTableEntry) :
    Nat × RuntimeModule × IdentifierTable :=
  let r := tbl.intern entry.content
  (r.1, { m with stringIDMap := m.stringIDMap.set stringID (some r.1) }, r.2)

/-- `RuntimeModule::getSymbolIDFromStringID`: reads the slot; when the
stored `SymbolID` is invalid, fetches the provider's string-table entry and
materializes the symbol via `createSymbolFromStringID`. `none` models an
out-of-bounds slot or string-table access, or a null provider (all
undefined behavior in the C++). -/
def getSymbolIDFromStringID (m : RuntimeModule) (tbl : IdentifierTable)
    (stringID : Nat) : Option (Nat × RuntimeModule × IdentifierTable) :=
  match m.stringIDMap[stringID]? with
  | none => none
  | some (some id) => some (id, m, tbl)
  | some none =>
    match m.bcProvider with
    | none => none
    | some bc =>
      match bc.stringTable[stringID]? with
      | none => none
      | some entry => some (m.createSymbolFromStringID tbl stringID entry)

/-- `RuntimeModule::getCodeBlockSlowPath`. Modelled from the spec for the
body (it lives in `RuntimeModule.cpp`): "constructs a new owned executable
unit from the Bytecode Provider's function-table entry `index`, stores it
in the slot, returns it". The fresh code block's identity is the current
allocation counter. -/
def getCodeBlockSlowPath (m : RuntimeModule) (alloc index : Nat) :
    CodeBlock × RuntimeModule × Nat :=
  (⟨alloc, index⟩,
   { m with functionMap := m.functionMap.set index (some ⟨alloc, index⟩) },
   alloc + 1)

/-- `RuntimeModule::getCodeBlockMayAllocate`: returns the function-map slot
when it is non-null, otherwise takes the slow path that materializes the
code block. `none` models an out-of-bounds index (undefined behavior). -/
def getCodeBlockMayAllocate (m : RuntimeModule) (alloc index : Nat) :
    Option (CodeBlock × RuntimeModule × Nat) :=
  match m.functionMap[index]? with
  | none => none
  | some (some cb) => some (cb, m, alloc)
  | some none => some (m.getCodeBlockSlowPath alloc index)

/-- A sequence of `getCodeBlockMayAllocate` calls at the given indices,
threading the module state and the allocation counter. -/
def runCodeBlockCalls (m : RuntimeModule) (alloc : Nat) :
    List Nat → Option (RuntimeModule × Nat)
  | [] => some (m, alloc)
  | i :: rest =>
    match m.getCodeBlockMayAllocate alloc i with
    | none => none
    | some (_, m', a') => m'.runCodeBlockCalls a' rest

/-- `RuntimeModule::getOnlyLazyCodeBlock`: asserts
`functionMap_.size() == 1 && functionMap_[0]` and returns the single code
block; `none` models the assertion failing. -/
def getOnlyLazyCodeBlock (m : RuntimeModule) : Option CodeBlock :=
  match m.functionMap with
  | [some cb] => some cb
  | _ => none

/-- `RuntimeModule::createLazyModule`. Modelled from the spec for the body
(it lives in `RuntimeModule.cpp`): "builds a Module containing exactly one
not-yet-materialized executable unit corresponding to `functionIndex` in
the parent's function table"; the child's single function-map slot holds
the lazy code block created for the requested function. Returns the child,
the created code block's identity, and the new allocation counter. -/
def createLazyModule (parent : RuntimeModule) (alloc functionID : Nat) :
    RuntimeModule × CodeBlock × Nat :=
  ({ stringIDMap := []
     functionMap := [some ⟨alloc, functionID⟩]
     bcProvider := none
     flags := RuntimeModuleFlags.default
     dependentModules := []
     objectLiteralHiddenClasses := []
     templateMap := [] },
   ⟨alloc, functionID⟩, alloc + 1)

/-- `hbc::BCProvider` CommonJS module-table import, as consumed by
`RuntimeModule::importCJSModuleTable`. Modelled from the spec (the body
lives in `RuntimeModule.cpp`): the import "can fail (malformed static
table)" and surfaces the failure as a status value. -/
def importCJSModuleTable (bc : BCProvider) : Except Unit Unit :=
  if bc.cjsTableMalformed then Except.error () else Except.ok ()

/-- `RuntimeModule::initializeWithoutCJSModules`. Modelled from the spec
for the body (it lives in `RuntimeModule.cpp`): "same as `initialize` but
skips CommonJS import, guaranteeing success". Installs the provider and
sizes the string-ID map and function map from the provider's tables, all
slots unmaterialized. -/
def initializeWithoutCJSModules (m : RuntimeModule) (bc : BCProvider) :
    RuntimeModule :=
  { m with
    bcProvider := some bc
    stringIDMap := List.replicate bc.stringTable.length none
    functionMap := List.replicate bc.functionCount none }

/-- `RuntimeModule::initialize`. Modelled from the spec for the body (it
lives in `RuntimeModule.cpp`): "performs the same import-and-CJS-import
sequence as eager creation; may fail for the same reason", reporting the
failure as a value-carrying status (`ExecutionStatus`), not a thrown
exception. -/
def initializeModule (m : RuntimeModule) (bc : BCProvider) :
    Except Unit RuntimeModule :=
  match importCJSModuleTable bc with
  | Except.error e => Except.error e
  | Except.ok _ => Except.ok (m.initializeWithoutCJSModules bc)

/-- `RuntimeModule::create` (eager creation, returning
`CallResult<RuntimeModule *>`). Modelled from the spec for the body (it
lives in `RuntimeModule.cpp`): "allocates a Module under `domain`, imports
the symbol-import table and executable-unit index immediately, then
attempts to import the CommonJS module table from the provider; fails with
an initialization error if that import fails (e.g. malformed static CJS
table), leaving no usable Module" — the same construct-then-import-and-CJS
sequence the spec ascribes to `initialize` on a fresh shell module, with
the failure carried as a result value. -/
def create (flags : RuntimeModuleFlags) (bc : BCProvider) :
    Except Unit RuntimeModule :=
  (createUninitialized flags).initializeModule bc

/-- `RuntimeModule::tryCacheLiteralHiddenClass`. Modelled from the spec for
the body (it lives in `RuntimeModule.cpp`): a silent no-op when the
`(keyBufferIndex, numLiterals)` tuple cannot generate a cache key;
otherwise inserts unconditionally under the packed key, overwriting any
earlier entry. The literal count is the class's property count. -/
def tryCacheLiteralHiddenClass (m : RuntimeModule) (keyBufferIndex : Nat)
    (clazz : HiddenClass) : RuntimeModule :=
  if canGenerateLiteralHiddenClassCacheKey keyBufferIndex clazz.numProperties then
    let key := literalKey keyBufferIndex clazz.numProperties
    { m with objectLiteralHiddenClasses :=
        mapInsert m.objectLiteralHiddenClasses key clazz.ptr }
  else
    m

/-- `RuntimeModule::findCachedLiteralHiddenClass`. Modelled from the spec
for the body (it lives in `RuntimeModule.cpp`): "when either bound is
violated, `findCachedShape` always returns not found regardless of prior
`tryCacheShape` calls"; in range, looks the packed key up in the cache. -/
def findCachedLiteralHiddenClass (m : RuntimeModule)
    (keyBufferIndex numLiterals : Nat) : Option Nat :=
  match getLiteralHiddenClassCacheHashKey keyBufferIndex numLiterals with
  | some key => mapLookup m.objectLiteralHiddenClasses key
  | none => none

end RuntimeModule

/-- A reference-count lifecycle operation on a module: an owner dropping a
reference, or the runtime-wide shutdown sweep. -/
inductive LifecycleOp where
  | releaseRef
  | shutdown
deriving DecidableEq

/-- The reference-count lifecycle state of one module. Modelled from the
spec (the reference-count bookkeeping lives outside this header): modules
are reference counted through their code blocks, and `persistent` means
"never get freed even when refCount_ goes to 0". -/
structure ModuleLifecycle where
  refCount : Nat
  persistent : Bool
  alive : Bool
deriving DecidableEq

namespace ModuleLifecycle

/-- Dropping one reference. Modelled from the spec: when the count decays
to zero the module is freed, unless the persistent flag is set. -/
def releaseRef (s : ModuleLifecycle) : ModuleLifecycle :=
  if s.refCount - 1 = 0 ∧ s.persistent = false then
    { s with refCount := s.refCount - 1, alive := false }
  else
    { s with refCount := s.refCount - 1 }

/-- `RuntimeModule::prepareForRuntimeShutdown`. Modelled from the spec for
the body (it lives in `RuntimeModule.cpp`): "when the Runtime shuts down,
we ignore that count and delete all in an arbitrary order" — the module is
freed unconditionally, ignoring the reference count. -/
def prepareForRuntimeShutdown (s : ModuleLifecycle) : ModuleLifecycle :=
  { s with alive := false }

/-- A sequence of lifecycle operations. -/
def run (s : ModuleLifecycle) : List LifecycleOp → ModuleLifecycle
  | [] => s
  | LifecycleOp.releaseRef :: rest => s.releaseRef.run rest
  | LifecycleOp.shutdown :: rest => s.prepareForRuntimeShutdown.run rest

end ModuleLifecycle

/-! ### Helper lemmas -/

lemma u32_eq_of_lt {n : Nat} (h : n < 2 ^ 32) : u32 n = n :=
  Nat.mod_eq_of_lt h

lemma testBit_mask_FF000000 (i : Nat) :
    Nat.testBit 0xFF000000 i = (decide (24 ≤ i) && decide (i < 32)) := by
  have hm : (0xFF000000 : Nat) = 2 ^ 24 * (2 ^ 8 - 1) := by norm_num
  rw [hm, Nat.testBit_mul_pow_two, Nat.testBit_two_pow_sub_one]
  simp only [ge_iff_le]
  rcases Nat.lt_or_ge i 24 with h | h
  · rw [decide_eq_false (by omega : ¬ (24 ≤ i))]
    simp
  · rw [decide_eq_true h]
    simp only [Bool.true_and]
    exact decide_eq_decide.mpr (by omega)

lemma land_FF000000_eq_zero_iff {k : Nat} (hk : k < 2 ^ 32) :
    k &&& 0xFF000000 = 0 ↔ k < 2 ^ 24 := by
  constructor
  · intro h
    by_contra hlt
    push_neg at hlt
    obtain ⟨i, hi, hbit⟩ := Nat.ge_two_pow_implies_high_bit_true hlt
    have hi32 : i < 32 := by
      by_contra h32
      push_neg at h32
      have hge := Nat.testBit_implies_ge hbit
      have : (2 : Nat) ^ 32 ≤ 2 ^ i := Nat.pow_le_pow_right (by norm_num) h32
      omega
    have hbit0 : Nat.testBit (k &&& 0xFF000000) i = true := by
      rw [Nat.testBit_and, hbit, testBit_mask_FF000000]
      simp [hi, hi32]
    rw [h] at hbit0
    simp at hbit0
  · intro h
    apply Nat.eq_of_testBit_eq
    intro i
    rw [Nat.testBit_and, testBit_mask_FF000000, Nat.zero_testBit]
    by_cases h24 : 24 ≤ i
    · have hki : k < 2 ^ i :=
        lt_of_lt_of_le h (Nat.pow_le_pow_right (by norm_num) h24)
      simp [Nat.testBit_lt_two_pow hki]
    · simp [h24]

lemma canGenerateLiteralHiddenClassCacheKey_iff {k n : Nat}
    (hk : k < 2 ^ 32) (hn : n < 2 ^ 32) :
    RuntimeModule.canGenerateLiteralHiddenClassCacheKey k n = true ↔
      k < 2 ^ 24 ∧ n < 256 := by
  unfold RuntimeModule.canGenerateLiteralHiddenClassCacheKey
  rw [u32_eq_of_lt hk, u32_eq_of_lt hn]
  simp only [Bool.and_eq_true, beq_iff_eq, decide_eq_true_eq]
  rw [land_FF000000_eq_zero_iff hk]

lemma literalKey_eq {k n : Nat} (hk : k < 2 ^ 24) (hn : n < 256) :
    RuntimeModule.literalKey k n = 2 ^ 8 * k + n := by
  unfold RuntimeModule.literalKey
  have hk32 : k < 2 ^ 32 := by omega
  have hn32 : n < 2 ^ 32 := by omega
  rw [u32_eq_of_lt hk32, u32_eq_of_lt hn32]
  have hshift : k <<< 8 = 2 ^ 8 * k := by
    rw [Nat.shiftLeft_eq]; ring
  rw [hshift]
  have hlt : 2 ^ 8 * k < 2 ^ 32 := by omega
  rw [u32_eq_of_lt hlt]
  exact (Nat.mul_add_lt_is_or (by omega) k).symm

lemma mapLookup_insert_self (m : List (Nat × Nat)) (k v : Nat) :
    mapLookup (mapInsert m k v) k = some v := by
  induction m with
  | nil => simp [mapInsert, mapLookup]
  | cons hd tl ih =>
    obtain ⟨k', v'⟩ := hd
    by_cases h : k' = k
    · subst h
      simp [mapInsert, mapLookup]
    · simp [mapInsert, mapLookup, h, ih]

lemma mapLookup_insert_ne (m : List (Nat × Nat)) {k k' : Nat} (v : Nat)
    (h : k' ≠ k) : mapLookup (mapInsert m k' v) k = mapLookup m k := by
  induction m with
  | nil => simp [mapInsert, mapLookup, h]
  | cons hd tl ih =>
    obtain ⟨k'', v''⟩ := hd
    by_cases h2 : k'' = k'
    · subst h2
      simp [mapInsert, mapLookup, h]
    · simp only [mapInsert, h2, if_false]
      by_cases h3 : k'' = k
      · simp [mapLookup, h3]
      · simp [mapLookup, h3, ih]

/-! ### Claim theorems -/

/-- C9: the packed shape-cache key `(keyBufferIndex << 8) | numLiterals` is
injective on the admissible domain (`keyBufferIndex < 2^24`,
`numLiterals < 256`): two distinct admissible pairs never produce the same
32-bit key; and `canGenerateLiteralHiddenClassCacheKey` returns `true`
exactly when `keyBufferIndex < 2^24` and `numLiterals < 256`, the bitmask
test `(keyBufferIndex & 0xFF000000) == 0` being equivalent to
`keyBufferIndex < 2^24` for a 32-bit value. -/
theorem literalHiddenClassCacheKey_injective_and_bounds :
    (∀ k1 n1 k2 n2 : Nat, k1 < 2 ^ 24 → n1 < 256 → k2 < 2 ^ 24 → n2 < 256 →
      RuntimeModule.getLiteralHiddenClassCacheHashKey k1 n1 =
        RuntimeModule.getLiteralHiddenClassCacheHashKey k2 n2 →
      k1 = k2 ∧ n1 = n2) ∧
    (∀ k n : Nat, k < 2 ^ 32 → n < 2 ^ 32 →
      (RuntimeModule.canGenerateLiteralHiddenClassCacheKey k n = true ↔
        k < 2 ^ 24 ∧ n < 256)) := by
  constructor
  · intro k1 n1 k2 n2 hk1 hn1 hk2 hn2 heq
    have hc1 : RuntimeModule.canGenerateLiteralHiddenClassCacheKey k1 n1 = true :=
      (canGenerateLiteralHiddenClassCacheKey_iff (by omega) (by omega)).mpr ⟨hk1, hn1⟩
    have hc2 : RuntimeModule.canGenerateLiteralHiddenClassCacheKey k2 n2 = true :=
      (canGenerateLiteralHiddenClassCacheKey_iff (by omega) (by omega)).mpr ⟨hk2, hn2⟩
    rw [RuntimeModule.getLiteralHiddenClassCacheHashKey,
        RuntimeModule.getLiteralHiddenClassCacheHashKey, hc1, hc2] at heq
    simp only [if_true, Option.some.injEq] at heq
    rw [literalKey_eq hk1 hn1, literalKey_eq hk2 hn2] at heq
    omega
  · intro k n hk hn
    exact canGenerateLiteralHiddenClassCacheKey_iff hk hn

/-- Witness for C9 at a concrete admissible pair. -/
theorem literalHiddenClassCacheKey_injective_and_bounds_witness :
    (3 : Nat) = 3 ∧ (7 : Nat) = 7 :=
  literalHiddenClassCacheKey_injective_and_bounds.1 3 7 3 7
    (by decide) (by decide) (by decide) (by decide) rfl

/-- C4: for the hidden-class cache, with `numLiterals` the class's property
count: in bounds (`keyBufferIndex < 2^24`, `numLiterals < 256`),
`tryCacheLiteralHiddenClass` followed by `findCachedLiteralHiddenClass` on
the same pair returns the cached class; out of bounds,
`tryCacheLiteralHiddenClass` is a silent no-op and
`findCachedLiteralHiddenClass` returns `none` on every module regardless of
prior calls; in bounds, a later insertion for the same key overwrites the
earlier one. -/
theorem literalHiddenClassCache_spec (m : RuntimeModule) (kbi : Nat)
    (clazz : HiddenClass) (hk : kbi < 2 ^ 32)
    (hn : clazz.numProperties < 2 ^ 32) :
    (kbi < 2 ^ 24 → clazz.numProperties < 256 →
      (m.tryCacheLiteralHiddenClass kbi clazz).findCachedLiteralHiddenClass
          kbi clazz.numProperties = some clazz.ptr) ∧
    (¬(kbi < 2 ^ 24 ∧ clazz.numProperties < 256) →
      m.tryCacheLiteralHiddenClass kbi clazz = m ∧
      ∀ m2 : RuntimeModule,
        m2.findCachedLiteralHiddenClass kbi clazz.numProperties = none) ∧
    (kbi < 2 ^ 24 → clazz.numProperties < 256 →
      ∀ c2 : HiddenClass, c2.numProperties = clazz.numProperties →
        ((m.tryCacheLiteralHiddenClass kbi clazz).tryCacheLiteralHiddenClass
            kbi c2).findCachedLiteralHiddenClass kbi clazz.numProperties =
          some c2.ptr) := by
  refine ⟨?_, ?_, ?_⟩
  · intro h1 h2
    have hc : RuntimeModule.canGenerateLiteralHiddenClassCacheKey kbi
        clazz.numProperties = true :=
      (canGenerateLiteralHiddenClassCacheKey_iff hk hn).mpr ⟨h1, h2⟩
    rw [RuntimeModule.tryCacheLiteralHiddenClass, hc]
    rw [RuntimeModule.findCachedLiteralHiddenClass,
        RuntimeModule.getLiteralHiddenClassCacheHashKey, hc]
    simp [mapLookup_insert_self]
  · intro hout
    have hc : RuntimeModule.canGenerateLiteralHiddenClassCacheKey kbi
        clazz.numProperties = false := by
      rw [← Bool.not_eq_true]
      intro hcontra
      exact hout ((canGenerateLiteralHiddenClassCacheKey_iff hk hn).mp hcontra)
    constructor
    · rw [RuntimeModule.tryCacheLiteralHiddenClass, hc]
      simp
    · intro m2
      rw [RuntimeModule.findCachedLiteralHiddenClass,
          RuntimeModule.getLiteralHiddenClassCacheHashKey, hc]
      simp
  · intro h1 h2 c2 hc2
    have hc : RuntimeModule.canGenerateLiteralHiddenClassCacheKey kbi
        clazz.numProperties = true :=
      (canGenerateLiteralHiddenClassCacheKey_iff hk hn).mpr ⟨h1, h2⟩
    simp only [RuntimeModule.tryCacheLiteralHiddenClass, hc2, hc, if_true,
               RuntimeModule.findCachedLiteralHiddenClass,
               RuntimeModule.getLiteralHiddenClassCacheHashKey]
    simp [mapLookup_insert_self]

/-- Witness for C4 at a concrete in-bounds and a concrete out-of-bounds
input. -/
theorem literalHiddenClassCache_spec_witness :
    (((RuntimeModule.createUninitialized
          RuntimeModuleFlags.default).tryCacheLiteralHiddenClass 3
          ⟨10, 2⟩).findCachedLiteralHiddenClass 3 2 = some 10) ∧
    ((RuntimeModule.createUninitialized
          RuntimeModuleFlags.default).tryCacheLiteralHiddenClass 16777216
          ⟨10, 2⟩ = RuntimeModule.createUninitialized RuntimeModuleFlags.default) :=
  ⟨(literalHiddenClassCache_spec
      (RuntimeModule.createUninitialized RuntimeModuleFlags.default) 3 ⟨10, 2⟩
      (by decide) (by decide)).1 (by decide) (by decide),
   ((literalHiddenClassCache_spec
      (RuntimeModule.createUninitialized RuntimeModuleFlags.default) 16777216
      ⟨10, 2⟩ (by norm_num) (by decide)).2.1 (by norm_num)).1⟩

lemma runTemplateOps_preserves (id obj : Nat) :
    ∀ (ops : List (Nat × Nat)) (m m' : RuntimeModule),
      mapLookup m.templateMap id = some obj →
      m.runTemplateOps ops = some m' →
      mapLookup m'.templateMap id = some obj := by
  intro ops
  induction ops with
  | nil =>
    intro m m' h hrun
    simp only [RuntimeModule.runTemplateOps, Option.some.injEq] at hrun
    rw [← hrun]
    exact h
  | cons op rest ih =>
    intro m m' h hrun
    obtain ⟨id2, obj2⟩ := op
    simp only [RuntimeModule.runTemplateOps] at hrun
    rcases hcache : m.cacheTemplateObject id2 obj2 with _ | m1
    · rw [hcache] at hrun
      exact absurd hrun (by simp)
    · rw [hcache] at hrun
      rw [RuntimeModule.cacheTemplateObject] at hcache
      by_cases hcont : mapContains m.templateMap id2
      · rw [if_pos hcont] at hcache
        exact absurd hcache (by simp)
      · rw [if_neg hcont] at hcache
        have hne : id2 ≠ id := by
          intro heq
          subst heq
          rw [mapContains, h] at hcont
          simp at hcont
        obtain rfl : m1 = { m with templateMap := mapInsert m.templateMap id2 obj2 } :=
          (Option.some_inj.mp hcache).symm
        have hm1 : mapLookup (mapInsert m.templateMap id2 obj2) id = some obj := by
          rw [mapLookup_insert_ne m.templateMap obj2 hne]
          exact h
        exact ih _ m' hm1 hrun

/-- C3: after `cacheTemplateObject(id, obj)` succeeds, every subsequent
call to `findCachedTemplateObject(id)` returns `obj`'s identity — also
after any further sequence of successful `cacheTemplateObject` calls, so
the entry is never overwritten — and calling `cacheTemplateObject` again
for the same id (the entry already exists in the template map) is a fatal
invariant violation. -/
theorem cacheTemplateObject_stable (m : RuntimeModule) (id obj : Nat)
    (m' : RuntimeModule) (h : m.cacheTemplateObject id obj = some m') :
    m'.findCachedTemplateObject id = some obj ∧
    (∀ obj2, m'.cacheTemplateObject id obj2 = none) ∧
    (∀ (ops : List (Nat × Nat)) (m'' : RuntimeModule),
      m'.runTemplateOps ops = some m'' →
      m''.findCachedTemplateObject id = some obj) := by
  rw [RuntimeModule.cacheTemplateObject] at h
  by_cases hcont : mapContains m.templateMap id
  · rw [if_pos hcont] at h
    exact absurd h (by simp)
  · rw [if_neg hcont] at h
    have hm' : m' = { m with templateMap := mapInsert m.templateMap id obj } :=
      (Option.some_inj.mp h).symm
    subst hm'
    have hfind : mapLookup (mapInsert m.templateMap id obj) id = some obj :=
      mapLookup_insert_self m.templateMap id obj
    refine ⟨hfind, ?_, ?_⟩
    · intro obj2
      rw [RuntimeModule.cacheTemplateObject]
      have : mapContains (mapInsert m.templateMap id obj) id = true := by
        rw [mapContains, hfind]
        rfl
      rw [this]
      simp
    · intro ops m'' hrun
      exact runTemplateOps_preserves id obj ops _ m'' hfind hrun

/-- Witness for C3: cache id 1, then cache id 2, and find id 1 both
immediately and after the second insertion; re-caching id 1 fails. -/
theorem cacheTemplateObject_stable_witness :
    ((RuntimeModule.createUninitialized
        RuntimeModuleFlags.default).cacheTemplateObject 1 5 =
      some { RuntimeModule.createUninitialized RuntimeModuleFlags.default with
             templateMap := [(1, 5)] }) ∧
    ({ RuntimeModule.createUninitialized RuntimeModuleFlags.default with
       templateMap := [(1, 5)] } : RuntimeModule).findCachedTemplateObject 1 =
      some 5 ∧
    ({ RuntimeModule.createUninitialized RuntimeModuleFlags.default with
       templateMap := [(1, 5)] } : RuntimeModule).cacheTemplateObject 1 9 =
      none := by
  refine ⟨by decide, ?_, ?_⟩
  · exact (cacheTemplateObject_stable
      (RuntimeModule.createUninitialized RuntimeModuleFlags.default) 1 5 _
      (by decide)).1
  · exact (cacheTemplateObject_stable
      (RuntimeModule.createUninitialized RuntimeModuleFlags.default) 1 5 _
      (by decide)).2.1 9

/-- C1: once the function-map slot for index `i` holds a materialized code
block `p`, any further sequence of `getCodeBlockMayAllocate` calls (at any
indices) leaves the slot holding exactly `p`, and a call at index `i`
returns `p` itself without changing the module: the filled slot is never
replaced for the module's lifetime. -/
theorem getCodeBlockMayAllocate_stable (i : Nat) (p : CodeBlock) :
    ∀ (ops : List Nat) (m : RuntimeModule) (alloc : Nat)
      (m' : RuntimeModule) (a' : Nat),
      m.functionMap[i]? = some (some p) →
      m.runCodeBlockCalls alloc ops = some (m', a') →
      m'.functionMap[i]? = some (some p) ∧
      m'.getCodeBlockMayAllocate a' i = some (p, m', a') := by
  intro ops
  induction ops with
  | nil =>
    intro m alloc m' a' h hrun
    simp only [RuntimeModule.runCodeBlockCalls, Option.some.injEq,
               Prod.mk.injEq] at hrun
    obtain ⟨rfl, rfl⟩ := hrun
    refine ⟨h, ?_⟩
    rw [RuntimeModule.getCodeBlockMayAllocate, h]
  | cons j rest ih =>
    intro m alloc m' a' h hrun
    simp only [RuntimeModule.runCodeBlockCalls] at hrun
    rcases hj : m.functionMap[j]? with _ | cbj
    · rw [RuntimeModule.getCodeBlockMayAllocate, hj] at hrun
      exact absurd hrun (by simp)
    · rcases cbj with _ | cb
      · rw [RuntimeModule.getCodeBlockMayAllocate, hj] at hrun
        simp only [RuntimeModule.getCodeBlockSlowPath] at hrun
        have hne : j ≠ i := by
          intro heq
          subst heq
          rw [h] at hj
          exact absurd hj (by simp)
        have hslot :
            (m.functionMap.set j (some ⟨alloc, j⟩))[i]? = some (some p) := by
          rw [List.getElem?_set_ne hne]
          exact h
        exact ih _ (alloc + 1) m' a' hslot hrun
      · rw [RuntimeModule.getCodeBlockMayAllocate, hj] at hrun
        exact ih m alloc m' a' h hrun

/-- Witness for C1: a module whose slot 0 is materialized, run through a
call at index 1 (which materializes slot 1) and a call back at index 0. -/
theorem getCodeBlockMayAllocate_stable_witness :
    (({ RuntimeModule.createUninitialized RuntimeModuleFlags.default with
        functionMap := [some ⟨7, 0⟩, none] } : RuntimeModule).functionMap[0]? =
      some (some ⟨7, 0⟩)) ∧
    (({ RuntimeModule.createUninitialized RuntimeModuleFlags.default with
        functionMap := [some ⟨7, 0⟩, some ⟨9, 1⟩] } :
          RuntimeModule).getCodeBlockMayAllocate 10 0 =
      some (⟨7, 0⟩,
        { RuntimeModule.createUninitialized RuntimeModuleFlags.default with
          functionMap := [some ⟨7, 0⟩, some ⟨9, 1⟩] }, 10)) :=
  ⟨by decide,
   (getCodeBlockMayAllocate_stable 0 ⟨7, 0⟩ [1, 0]
      { RuntimeModule.createUninitialized RuntimeModuleFlags.default with
        functionMap := [some ⟨7, 0⟩, none] } 9
      { RuntimeModule.createUninitialized RuntimeModuleFlags.default with
        functionMap := [some ⟨7, 0⟩, some ⟨9, 1⟩] } 10
      (by decide) (by decide)).2⟩

/-- C2: for a valid string index, calling `getSymbolIDFromStringID` twice
returns the identical `SymbolID` both times, and the second call performs
no hashing or interning work: it returns with the module, the identifier
table, and in particular the table's intern-call count all unchanged (the
slot is memoized, so provider and symbol table are consulted at most once
per slot per module lifetime). -/
theorem getSymbolIDFromStringID_idempotent (m : RuntimeModule)
    (tbl : IdentifierTable) (i s : Nat) (m' : RuntimeModule)
    (tbl' : IdentifierTable)
    (h : m.getSymbolIDFromStringID tbl i = some (s, m', tbl')) :
    m'.getSymbolIDFromStringID tbl' i = some (s, m', tbl') ∧
    (∀ (s2 : Nat) (m2 : RuntimeModule) (tbl2 : IdentifierTable),
      m'.getSymbolIDFromStringID tbl' i = some (s2, m2, tbl2) →
      s2 = s ∧ tbl2.internCalls = tbl'.internCalls) := by
  have hmain : m'.getSymbolIDFromStringID tbl' i = some (s, m', tbl') := by
    rcases hslot : m.stringIDMap[i]? with _ | oid
    · rw [RuntimeModule.getSymbolIDFromStringID, hslot] at h
      exact absurd h (by simp)
    · rcases oid with _ | id
      · rcases hbc : m.bcProvider with _ | bc
        · simp only [RuntimeModule.getSymbolIDFromStringID, hslot, hbc] at h
          exact absurd h (by simp)
        · rcases hent : bc.stringTable[i]? with _ | entry
          · simp only [RuntimeModule.getSymbolIDFromStringID, hslot, hbc,
                       hent] at h
            exact absurd h (by simp)
          · simp only [RuntimeModule.getSymbolIDFromStringID, hslot, hbc,
                       hent, RuntimeModule.createSymbolFromStringID,
                       Option.some.injEq, Prod.mk.injEq] at h
            obtain ⟨rfl, rfl, rfl⟩ := h
            have hlen : i < m.stringIDMap.length :=
              (List.getElem?_eq_some.mp hslot).1
            have hslot' :
                (m.stringIDMap.set i
                  (some (tbl.intern entry.content).1))[i]? =
                  some (some (tbl.intern entry.content).1) :=
              List.getElem?_set_self (by simpa using hlen)
            rw [RuntimeModule.getSymbolIDFromStringID]
            simp only [hslot']
      · rw [RuntimeModule.getSymbolIDFromStringID, hslot] at h
        simp only [Option.some.injEq, Prod.mk.injEq] at h
        obtain ⟨rfl, rfl, rfl⟩ := h
        rw [RuntimeModule.getSymbolIDFromStringID, hslot]
  refine ⟨hmain, ?_⟩
  intro s2 m2 tbl2 h2
  rw [hmain] at h2
  simp only [Option.some.injEq, Prod.mk.injEq] at h2
  obtain ⟨rfl, -, rfl⟩ := h2
  exact ⟨rfl, rfl⟩

/-- Witness for C2: a module with an empty slot materializes a symbol on
the first call; the theorem gives that the second call returns the same
symbol with no further interning. -/
theorem getSymbolIDFromStringID_idempotent_witness :
    ({ RuntimeModule.createUninitialized RuntimeModuleFlags.default with
       stringIDMap := [some 0],
       bcProvider := some
         { stringTable := [⟨[65]⟩], functionCount := 0, cjsModuleTable := [],
           cjsModuleTableStatic := [], cjsTableMalformed := false,
           isLazy := false } } : RuntimeModule).getSymbolIDFromStringID
        ⟨[[65]], 1⟩ 0 =
      some (0,
        { RuntimeModule.createUninitialized RuntimeModuleFlags.default with
          stringIDMap := [some 0],
          bcProvider := some
            { stringTable := [⟨[65]⟩], functionCount := 0,
              cjsModuleTable := [], cjsModuleTableStatic := [],
              cjsTableMalformed := false, isLazy := false } }, ⟨[[65]], 1⟩) :=
  (getSymbolIDFromStringID_idempotent
    { RuntimeModule.createUninitialized RuntimeModuleFlags.default with
      stringIDMap := [none],
      bcProvider := some
        { stringTable := [⟨[65]⟩], functionCount := 0, cjsModuleTable := [],
          cjsModuleTableStatic := [], cjsTableMalformed := false,
          isLazy := false } } ⟨[], 0⟩ 0 0 _ _ (by decide)).1

/-- C5: when the slot for a string index has already been materialized,
`getSymbolIDMustExist` passes its assertion and returns the same
`SymbolID` that `getSymbolIDFromStringID` would return, without consulting
the bytecode provider or the identifier table (module and table are
untouched); calling it on an unmaterialized slot is a fatal invariant
violation. -/
theorem getSymbolIDMustExist_spec (m : RuntimeModule)
    (tbl : IdentifierTable) (i : Nat) :
    (∀ v : Nat, m.stringIDMap[i]? = some (some v) →
      m.getSymbolIDMustExist i = some v ∧
      m.getSymbolIDFromStringID tbl i = some (v, m, tbl)) ∧
    (m.stringIDMap[i]? = some none → m.getSymbolIDMustExist i = none) := by
  constructor
  · intro v hv
    constructor
    · rw [RuntimeModule.getSymbolIDMustExist, hv]
    · rw [RuntimeModule.getSymbolIDFromStringID, hv]
  · intro hnone
    rw [RuntimeModule.getSymbolIDMustExist, hnone]

/-- Witness for C5 at a concrete materialized slot. -/
theorem getSymbolIDMustExist_spec_witness :
    ({ RuntimeModule.createUninitialized RuntimeModuleFlags.default with
       stringIDMap := [some 4] } : RuntimeModule).getSymbolIDMustExist 0 =
      some 4 :=
  ((getSymbolIDMustExist_spec
      { RuntimeModule.createUninitialized RuntimeModuleFlags.default with
        stringIDMap := [some 4] } ⟨[], 0⟩ 0).1 4 (by decide)).1

/-- C6: a module produced by `createLazyModule` always satisfies
`getOnlyLazyCodeBlock`: its function map has exactly one entry, that entry
is non-null, and `getOnlyLazyCodeBlock` returns that one code block — the
one created for the requested function index; on any module whose function
map is not exactly one non-null entry, `getOnlyLazyCodeBlock` fails its
assertion. -/
theorem createLazyModule_onlyLazyCodeBlock :
    (∀ (parent : RuntimeModule) (alloc functionID : Nat),
      (parent.createLazyModule alloc functionID).1.getOnlyLazyCodeBlock =
        some (parent.createLazyModule alloc functionID).2.1 ∧
      (parent.createLazyModule alloc functionID).2.1.functionID = functionID) ∧
    (∀ m : RuntimeModule, (∀ cb : CodeBlock, m.functionMap ≠ [some cb]) →
      m.getOnlyLazyCodeBlock = none) := by
  constructor
  · intro parent alloc functionID
    exact ⟨rfl, rfl⟩
  · intro m h
    rw [RuntimeModule.getOnlyLazyCodeBlock]
    rcases hm : m.functionMap with _ | ⟨hd, tl⟩
    · rfl
    · rcases hd with _ | cb
      · rfl
      · rcases tl with _ | ⟨hd2, tl2⟩
        · exact absurd hm (h cb)
        · rfl

/-- Witness for C6: the assertion-failure half applied to an uninitialized
module (empty function map). -/
theorem createLazyModule_onlyLazyCodeBlock_witness :
    (RuntimeModule.createUninitialized
        RuntimeModuleFlags.default).getOnlyLazyCodeBlock = none :=
  createLazyModule_onlyLazyCodeBlock.2
    (RuntimeModule.createUninitialized RuntimeModuleFlags.default)
    (fun cb => by simp [RuntimeModule.createUninitialized])

/-- C7: a live module whose persistent flag is set is never freed by
reference-count decay: no sequence of lifecycle operations that avoids the
shutdown path can make it dead (so a reference count reaching zero does not
destroy it), while `prepareForRuntimeShutdown` — the unconditional shutdown
path — does free it. -/
theorem persistentModule_only_shutdown_frees (s : ModuleLifecycle)
    (hp : s.persistent = true) (ha : s.alive = true) :
    (∀ ops : List LifecycleOp, LifecycleOp.shutdown ∉ ops →
      (s.run ops).alive = true) ∧
    s.prepareForRuntimeShutdown.alive = false := by
  constructor
  · intro ops
    induction ops generalizing s with
    | nil =>
      intro hmem
      exact ha
    | cons op rest ih =>
      intro hmem
      have hop : op ≠ LifecycleOp.shutdown := by
        intro heq
        exact hmem (heq ▸ List.mem_cons_self op rest)
      have hrest : LifecycleOp.shutdown ∉ rest := by
        intro hmem2
        exact hmem (List.mem_cons_of_mem op hmem2)
      cases op with
      | shutdown => exact absurd rfl hop
      | releaseRef =>
        simp only [ModuleLifecycle.run]
        have hrel : s.releaseRef = { s with refCount := s.refCount - 1 } := by
          rw [ModuleLifecycle.releaseRef, if_neg]
          intro hcond
          rw [hp] at hcond
          exact absurd hcond.2 (by simp)
        rw [hrel]
        exact ih { s with refCount := s.refCount - 1 } hp ha hrest
  · rfl

/-- Witness for C7: a persistent module with a single reference survives
two reference drops; shutdown frees it. -/
theorem persistentModule_only_shutdown_frees_witness :
    (({ refCount := 1, persistent := true, alive := true } :
        ModuleLifecycle).run [LifecycleOp.releaseRef, LifecycleOp.releaseRef]).alive
      = true ∧
    ({ refCount := 1, persistent := true, alive := true } :
        ModuleLifecycle).prepareForRuntimeShutdown.alive = false :=
  ⟨(persistentModule_only_shutdown_frees
      { refCount := 1, persistent := true, alive := true } rfl rfl).1
      [LifecycleOp.releaseRef, LifecycleOp.releaseRef] (by decide),
   (persistentModule_only_shutdown_frees
      { refCount := 1, persistent := true, alive := true } rfl rfl).2⟩

/-- C8: initialization failure is value-returning, not thrown: both
`create` (eager creation, returning a `CallResult` value) and
`initializeModule` report a failed CommonJS module-table import as a
failure value — each returns `error` exactly when the provider's static
CJS table is malformed, leaving no usable module — and otherwise they
return the initialized module; `initializeWithoutCJSModules` skips the
CommonJS table and always succeeds: for every provider, malformed CJS
table or not, it yields a module with the provider installed and returns
no status. -/
theorem createAndInitialize_failure_is_value (flags : RuntimeModuleFlags)
    (m : RuntimeModule) (bc : BCProvider) :
    (RuntimeModule.create flags bc = Except.error () ↔
      bc.cjsTableMalformed = true) ∧
    (m.initializeModule bc = Except.error () ↔ bc.cjsTableMalformed = true) ∧
    (bc.cjsTableMalformed = false →
      RuntimeModule.create flags bc =
        Except.ok ((RuntimeModule.createUninitialized
          flags).initializeWithoutCJSModules bc) ∧
      m.initializeModule bc = Except.ok (m.initializeWithoutCJSModules bc)) ∧
    (m.initializeWithoutCJSModules bc).bcProvider = some bc := by
  refine ⟨?_, ?_, ?_, rfl⟩
  · rcases hmal : bc.cjsTableMalformed with _ | _
    · simp [RuntimeModule.create, RuntimeModule.initializeModule,
            RuntimeModule.importCJSModuleTable, hmal]
    · simp [RuntimeModule.create, RuntimeModule.initializeModule,
            RuntimeModule.importCJSModuleTable, hmal]
  · rcases hmal : bc.cjsTableMalformed with _ | _
    · simp [RuntimeModule.initializeModule, RuntimeModule.importCJSModuleTable, hmal]
    · simp [RuntimeModule.initializeModule, RuntimeModule.importCJSModuleTable, hmal]
  · intro hmal
    constructor
    · simp [RuntimeModule.create, RuntimeModule.initializeModule,
            RuntimeModule.importCJSModuleTable, hmal]
    · simp [RuntimeModule.initializeModule, RuntimeModule.importCJSModuleTable, hmal]

/-- Witness for C8: a malformed CJS table makes both `create` and
`initializeModule` return the error value; with a well-formed table
`create` succeeds. -/
theorem createAndInitialize_failure_is_value_witness :
    RuntimeModule.create RuntimeModuleFlags.default
        { stringTable := [], functionCount := 0, cjsModuleTable := [],
          cjsModuleTableStatic := [], cjsTableMalformed := true,
          isLazy := false } =
      Except.error () ∧
    RuntimeModule.create RuntimeModuleFlags.default
        { stringTable := [], functionCount := 0, cjsModuleTable := [],
          cjsModuleTableStatic := [], cjsTableMalformed := false,
          isLazy := false } =
      Except.ok ((RuntimeModule.createUninitialized
          RuntimeModuleFlags.default).initializeWithoutCJSModules
        { stringTable := [], functionCount := 0, cjsModuleTable := [],
          cjsModuleTableStatic := [], cjsTableMalformed := false,
          isLazy := false }) ∧
    (RuntimeModule.createUninitialized
        RuntimeModuleFlags.default).initializeModule
        { stringTable := [], functionCount := 0, cjsModuleTable := [],
          cjsModuleTableStatic := [], cjsTableMalformed := true,
          isLazy := false } =
      Except.error () :=
  ⟨(createAndInitialize_failure_is_value RuntimeModuleFlags.default
      (RuntimeModule.createUninitialized RuntimeModuleFlags.default)
      { stringTable := [], functionCount := 0, cjsModuleTable := [],
        cjsModuleTableStatic := [], cjsTableMalformed := true,
        isLazy := false }).1.mpr rfl,
   ((createAndInitialize_failure_is_value RuntimeModuleFlags.default
      (RuntimeModule.createUninitialized RuntimeModuleFlags.default)
      { stringTable := [], functionCount := 0, cjsModuleTable := [],
        cjsModuleTableStatic := [], cjsTableMalformed := false,
        isLazy := false }).2.2.1 rfl).1,
   (createAndInitialize_failure_is_value RuntimeModuleFlags.default
      (RuntimeModule.createUninitialized RuntimeModuleFlags.default)
      { stringTable := [], functionCount := 0, cjsModuleTable := [],
        cjsModuleTableStatic := [], cjsTableMalformed := true,
        isLazy := false }).2.1.mpr rfl⟩

/-- C10: `isInitialized` unconditionally dereferences the bytecode
provider: its result is defined exactly when the provider is non-null, in
which case it is `true` exactly when the provider is not lazy; on a module
fresh out of `createUninitialized` (provider still null) the result is
undefined, so the non-null provider is a precondition of this accessor. -/
theorem isInitialized_requires_provider :
    (∀ m : RuntimeModule, m.isInitialized = none ↔ m.bcProvider = none) ∧
    (∀ (m : RuntimeModule) (bc : BCProvider), m.bcProvider = some bc →
      (m.isInitialized = some true ↔ bc.isLazy = false)) ∧
    (∀ flags : RuntimeModuleFlags,
      (RuntimeModule.createUninitialized flags).isInitialized = none) := by
  refine ⟨?_, ?_, fun flags => rfl⟩
  · intro m
    rcases hbc : m.bcProvider with _ | bc
    · simp [RuntimeModule.isInitialized, hbc]
    · simp [RuntimeModule.isInitialized, hbc]
  · intro m bc hbc
    rcases hlazy : bc.isLazy with _ | _
    · simp [RuntimeModule.isInitialized, hbc, hlazy]
    · simp [RuntimeModule.isInitialized, hbc, hlazy]

/-- Witness for C10: a module holding a non-lazy provider reports
initialized. -/
theorem isInitialized_requires_provider_witness :
    ({ RuntimeModule.createUninitialized RuntimeModuleFlags.default with
       bcProvider := some
         { stringTable := [], functionCount := 0, cjsModuleTable := [],
           cjsModuleTableStatic := [], cjsTableMalformed := false,
           isLazy := false } } : RuntimeModule).isInitialized = some true :=
  (isInitialized_requires_provider.2.1
    { RuntimeModule.createUninitialized RuntimeModuleFlags.default with
      bcProvider := some
        { stringTable := [], functionCount := 0, cjsModuleTable := [],
          cjsModuleTableStatic := [], cjsTableMalformed := false,
          isLazy := false } }
    { stringTable := [], functionCount := 0, cjsModuleTable := [],
      cjsModuleTableStatic := [], cjsTableMalformed := false,
      isLazy := false } rfl).mpr rfl

end HermesVM
